import Mathlib

/-!
Verification of the UPSM Network Policy Manager (SDN controller, `controller.py`).

The Python source is shallowly embedded here. Python `dict`s (which preserve
insertion order and update values in place) are modelled as association lists
`List (String × α)` with `alistFind` / `alistInsert` / `alistErase` mirroring
`d[k]`, `d[k] = v` and `del d[k]`. The external Floodlight controller is
modelled by oracle parameters: `devices` is the JSON answer of
`GET /wm/device/` (`none` = unreachable / non-200), `routeResp` the answer of
the route query, and `failAt` / `removeFail` mark the step of the
`try:` block of `build_route` / `eliminar_flujos` at which an exception is
raised (`none` / `false` = no exception), making the `except` branches of the
source reachable in the model exactly as they are in Python.
-/

set_option maxRecDepth 16384

namespace NPM

/-- Python `str.lower()` (kernel-reducible: per-character map). -/
def strLower (s : String) : String := ⟨s.data.map Char.toLower⟩

/-- Python `str.upper()`. -/
def strUpper (s : String) : String := ⟨s.data.map Char.toUpper⟩

/-- Python `str.strip()`: drop surrounding whitespace. -/
def strTrim (s : String) : String :=
  ⟨((s.data.dropWhile Char.isWhitespace).reverse.dropWhile Char.isWhitespace).reverse⟩

/-- Python dict lookup `d.get(k)` / `k in d` on an insertion-ordered dict. -/
def alistFind {α : Type} (l : List (String × α)) (k : String) : Option α :=
  (l.find? (fun p => p.1 == k)).map (fun p => p.2)

/-- Python dict assignment `d[k] = v`: update in place if the key exists
(keeping its position, as Python dicts do), otherwise append. -/
def alistInsert {α : Type} (l : List (String × α)) (k : String) (v : α) :
    List (String × α) :=
  if (l.find? (fun p => p.1 == k)).isSome then
    l.map (fun p => if p.1 == k then (k, v) else p)
  else
    l ++ [(k, v)]

/-- Python `del d[k]` (call sites always guard on membership first). -/
def alistErase {α : Type} (l : List (String × α)) (k : String) :
    List (String × α) :=
  l.filter (fun p => p.1 != k)

/-- `class Alumno`. -/
structure Alumno where
  nombre : String
  codigo : String
  mac : String
deriving DecidableEq, Repr

/-- `class Servicio`. -/
structure Servicio where
  nombre : String
  protocolo : String
  puerto : Nat
deriving DecidableEq, Repr

/-- `class Servidor`. -/
structure Servidor where
  nombre : String
  ip : String
  servicios : List Servicio
deriving DecidableEq, Repr

/-- `class Curso`: `alumnos` is the member-code list, `servidores` the list of
(server, permitted-service-name list) grants. -/
structure Curso where
  codigo : String
  nombre : String
  estado : String
  alumnos : List String
  servidores : List (Servidor × List String)
deriving DecidableEq, Repr

/-- `Curso.agregar_alumno`: append unless already present. -/
def agregarAlumno (c : Curso) (codigoAlumno : String) : Curso :=
  if c.alumnos.contains codigoAlumno then c
  else { c with alumnos := c.alumnos ++ [codigoAlumno] }

/-- `Curso.agregar_servidor`. -/
def agregarServidor (c : Curso) (srv : Servidor) (serviciosPermitidos : List String) : Curso :=
  { c with servidores := c.servidores ++ [(srv, serviciosPermitidos)] }

/-- `class Conexion` (the id is generated by `uuid4` in Python; here it is a
parameter of the operations, with freshness as a hypothesis where needed). -/
structure Conexion where
  id : String
  alumno : Alumno
  servidor : Servidor
  servicio : Servicio
  ruta : List (String × Nat)
deriving DecidableEq, Repr

/-- An element of the per-connection tracked-flow list
(`self.conexion_flujos[id]`). Python lists are heterogeneous: the source
appends flow *name strings* for the two data flows but the full flow
*dictionaries* for the two ARP flows, so the element type is a sum. -/
inductive FlowEntry where
  | str (s : String)
  | dict (d : List (String × String))
deriving DecidableEq, Repr

/-- The mutable state of `class SDNController`. -/
structure SDNState where
  alumnos : List (String × Alumno)
  servidores : List (String × Servidor)
  cursos : List (String × Curso)
  conexiones : List (String × Conexion)
  conexionFlujos : List (String × List FlowEntry)
deriving DecidableEq, Repr

def emptyState : SDNState := ⟨[], [], [], [], []⟩

/-- MAC normalization used for comparisons:
`mac.lower().replace(':', '').replace('-', '')`. -/
def normMac (s : String) : String :=
  ⟨(strLower s).data.filter (fun c => !(c == ':' || c == '-'))⟩

/-- `a` occurs at the start of `b` (helper for Python's substring test). -/
def chrsLead : List Char → List Char → Bool
  | [], _ => true
  | _ :: _, [] => false
  | a :: as, b :: bs => a == b && chrsLead as bs

/-- Python `a in b` on strings: `a` occurs as a contiguous substring of `b`. -/
def chrsSub : List Char → List Char → Bool
  | n, [] => n.isEmpty
  | n, b :: bs => chrsLead n (b :: bs) || chrsSub n bs

/-- One device record of the controller's `GET /wm/device/` answer:
its known MAC list and its attachment-point list (switchDPID, port). -/
structure Device where
  mac : List String
  attachmentPoint : List (String × Nat)
deriving DecidableEq, Repr

/-- The static fallback table `mac_map` of `get_attachment_point`,
in source order. -/
def macMap : List (String × (String × Nat)) :=
  [("aa:51:aa:ba:72:41", ("00:00:aa:51:aa:ba:72:41", 2)),
   ("1a:74:72:3f:ef:44", ("00:00:1a:74:72:3f:ef:44", 2)),
   ("fe:16:3e:2c:76:52", ("00:00:5e:c7:6e:c6:11:4c", 1)),
   ("fa:16:3e:f4:1f:11", ("00:00:aa:51:aa:ba:72:41", 2)),
   ("fe:16:3e:6c:cf:e4", ("00:00:f2:20:f9:45:4c:4e", 3)),
   ("5e:c7:6e:c6:11:4c", ("00:00:5e:c7:6e:c6:11:4c", 2)),
   ("fa:16:3e:cd:5b:bd", ("00:00:aa:51:aa:ba:72:41", 2)),
   ("72:e0:80:7e:85:4c", ("00:00:72:e0:80:7e:85:4c", 2)),
   ("fe:16:3e:d5:92:74", ("00:00:1a:74:72:3f:ef:44", 3)),
   ("fa:16:3e:05:f4:08", ("00:00:5e:c7:6e:c6:11:4c", 1)),
   ("fe:16:3e:ec:df:26", ("00:00:aa:51:aa:ba:72:41", 5)),
   ("fa:16:3e:c4:a9:9d", ("00:00:f2:20:f9:45:4c:4e", 3)),
   ("fa:16:3e:3f:1a:fd", ("00:00:5e:c7:6e:c6:11:4c", 3)),
   ("fe:16:3e:84:34:52", ("00:00:5e:c7:6e:c6:11:4c", 3)),
   ("fe:16:3e:dc:6e:fa", ("00:00:72:e0:80:7e:85:4c", 2)),
   ("fa:16:3e:d6:a2:a3", ("00:00:1a:74:72:3f:ef:44", 3)),
   ("fe:16:3e:d3:02:36", ("00:00:aa:51:aa:ba:72:41", 2)),
   ("f2:20:f9:45:4c:4e", ("00:00:f2:20:f9:45:4c:4e", 3)),
   ("fe:16:3e:8b:eb:df", ("00:00:72:e0:80:7e:85:4c", 2))]

/-- The controller-query half of `get_attachment_point`: scan the device list
for the first device whose normalized MAC list contains the normalized MAC
and whose attachment-point list is non-empty, returning its first
attachment point. `none` models controller unreachable / non-200 / no match. -/
def deviceLookup (devices : Option (List Device)) (mac : String) :
    Option (String × Nat) :=
  match devices with
  | none => none
  | some ds =>
    (ds.find? (fun d =>
        (d.mac.map normMac).contains (normMac mac) && !d.attachmentPoint.isEmpty)).bind
      (fun d => d.attachmentPoint.head?)

/-- `SDNController.get_attachment_point`: controller first, then the static
`mac_map` (whose match is Python's *substring* test on normalized MACs), and
finally the fixed default `("00:00:5e:c7:6e:c6:11:4c", 3)`. -/
def getAttachmentPoint (devices : Option (List Device)) (mac : String) :
    String × Nat :=
  match deviceLookup devices mac with
  | some ap => ap
  | none =>
    match macMap.find? (fun p => chrsSub (normMac mac).data (normMac p.1).data) with
    | some p => p.2
    | none => ("00:00:5e:c7:6e:c6:11:4c", 3)

/-- `SDNController.get_route`: `routeResp` is the controller's answer
(`none` = unreachable / non-200 / exception); on failure the synthesized
fallback path is returned. -/
def getRoute (routeResp : Option (List (String × Nat)))
    (srcDpid : String) (srcPort : Nat) (dstDpid : String) (dstPort : Nat) :
    List (String × Nat) :=
  match routeResp with
  | some path => path
  | none =>
    if srcDpid == dstDpid then [(srcDpid, dstPort)]
    else [(srcDpid, 1), (dstDpid, dstPort)]

/-- Name of the forward data flow:
`f"flow_alumno_to_servidor_{conexion.id}_{switch_dpid}_{in_port}_{out_port}"`. -/
def fwdName (cid dpid : String) (inPort outPort : Nat) : String :=
  "flow_alumno_to_servidor_" ++ cid ++ "_" ++ dpid ++ "_" ++
    toString inPort ++ "_" ++ toString outPort

/-- Name of the reverse data flow (ports swapped in the name). -/
def revName (cid dpid : String) (inPort outPort : Nat) : String :=
  "flow_servidor_to_alumno_" ++ cid ++ "_" ++ dpid ++ "_" ++
    toString outPort ++ "_" ++ toString inPort

/-- Name of the forward ARP flow. -/
def arpFwdName (cid dpid : String) (inPort outPort : Nat) : String :=
  "flow_arp_alumno_to_servidor_" ++ cid ++ "_" ++ dpid ++ "_" ++
    toString inPort ++ "_" ++ toString outPort

/-- Name of the reverse ARP flow. -/
def arpRevName (cid dpid : String) (inPort outPort : Nat) : String :=
  "flow_arp_servidor_to_alumno_" ++ cid ++ "_" ++ dpid ++ "_" ++
    toString outPort ++ "_" ++ toString inPort

/-- The `flow_forward` dictionary of `build_route` (JSON keys in source
order; all values are strings in the source, including stringified ports). -/
def flowForward (cid dpid : String) (inPort outPort : Nat)
    (mac ip proto : String) (puerto : Nat) : List (String × String) :=
  [("switch", dpid),
   ("name", fwdName cid dpid inPort outPort),
   ("cookie", "0"),
   ("priority", "32768"),
   ("in_port", toString inPort),
   ("eth_src", mac),
   ("eth_type", "0x0800"),
   ("ipv4_dst", ip),
   ("ip_proto", if strUpper proto == "TCP" then "6" else "17"),
   ((if strUpper proto == "TCP" then "tcp_dst" else "udp_dst"), toString puerto),
   ("active", "true"),
   ("actions", "output=" ++ toString outPort)]

/-- The `flow_reverse` dictionary of `build_route`. -/
def flowReverse (cid dpid : String) (inPort outPort : Nat)
    (mac ip proto : String) (puerto : Nat) : List (String × String) :=
  [("switch", dpid),
   ("name", revName cid dpid inPort outPort),
   ("cookie", "0"),
   ("priority", "32768"),
   ("in_port", toString outPort),
   ("eth_dst", mac),
   ("eth_type", "0x0800"),
   ("ipv4_src", ip),
   ("ip_proto", if strUpper proto == "TCP" then "6" else "17"),
   ((if strUpper proto == "TCP" then "tcp_src" else "udp_src"), toString puerto),
   ("active", "true"),
   ("actions", "output=" ++ toString inPort)]

/-- The `flow_arp_forward` dictionary of `build_route`. -/
def flowArpForward (cid dpid : String) (inPort outPort : Nat) (mac : String) :
    List (String × String) :=
  [("switch", dpid),
   ("name", arpFwdName cid dpid inPort outPort),
   ("cookie", "0"),
   ("priority", "32768"),
   ("in_port", toString inPort),
   ("eth_src", mac),
   ("eth_type", "0x0806"),
   ("active", "true"),
   ("actions", "output=" ++ toString outPort)]

/-- The `flow_arp_reverse` dictionary of `build_route`. -/
def flowArpReverse (cid dpid : String) (inPort outPort : Nat) (mac : String) :
    List (String × String) :=
  [("switch", dpid),
   ("name", arpRevName cid dpid inPort outPort),
   ("cookie", "0"),
   ("priority", "32768"),
   ("in_port", toString outPort),
   ("eth_type", "0x0806"),
   ("eth_dst", mac),
   ("active", "true"),
   ("actions", "output=" ++ toString inPort)]

/-- The four entries `build_route` appends to `flujos_instalados` for one
hop, in source order. Note (faithful to the source, lines 652/656/660/664):
the two data-flow entries are the *name strings* `flow_name_forward` /
`flow_name_reverse`, but the two ARP entries are the flow *dictionaries*
`flow_arp_forward` / `flow_arp_reverse`, not their name strings. -/
def hopEntries (cid dpid : String) (inPort outPort : Nat)
    (mac ip proto : String) (puerto : Nat) : List FlowEntry :=
  [FlowEntry.str (fwdName cid dpid inPort outPort),
   FlowEntry.str (revName cid dpid inPort outPort),
   FlowEntry.dict (flowArpForward cid dpid inPort outPort mac),
   FlowEntry.dict (flowArpReverse cid dpid inPort outPort mac)]

/-- The full `flujos_instalados` list accumulated over the hops of a route:
the ingress port of the first hop is the user's attachment port
(`alumnoPort`), afterwards the previous hop's egress port. -/
def routeEntries (cid mac ip proto : String) (puerto : Nat) :
    Nat → List (String × Nat) → List FlowEntry
  | _, [] => []
  | inPort, (dpid, outPort) :: rest =>
    hopEntries cid dpid inPort outPort mac ip proto puerto ++
      routeEntries cid mac ip proto puerto outPort rest

/-- `SDNController.build_route`. `failAt = some k` means the `try:` block
raises an exception at the `k`-th rule-installation step (0-based, four steps
per hop); the local `flujos_instalados` list is then discarded and the
`except` branch returns `False` leaving `conexion_flujos` untouched.
On success the whole list is recorded under the connection id. -/
def buildRoute (devices : Option (List Device)) (failAt : Option Nat)
    (st : SDNState) (ruta : List (String × Nat)) (cx : Conexion) :
    SDNState × Bool :=
  if ruta.isEmpty then (st, false)
  else
    let alumnoPort := (getAttachmentPoint devices cx.alumno.mac).2
    let entries := routeEntries cx.id cx.alumno.mac cx.servidor.ip
      cx.servicio.protocolo cx.servicio.puerto alumnoPort ruta
    match failAt with
    | some k =>
      if k < entries.length then (st, false)
      else ({ st with conexionFlujos := alistInsert st.conexionFlujos cx.id entries }, true)
    | none =>
      ({ st with conexionFlujos := alistInsert st.conexionFlujos cx.id entries }, true)

/-- `SDNController.eliminar_flujos`. `removeFail = true` means the `try:`
block raises during the per-rule removal loop: the `except` branch returns
`False` and — because `del self.conexion_flujos[id]` sits *after* the loop
inside the `try` — the tracked entry is left in place. -/
def eliminarFlujos (removeFail : Bool) (st : SDNState) (idConexion : String) :
    SDNState × Bool :=
  match alistFind st.conexionFlujos idConexion with
  | none => (st, false)
  | some _ =>
    if removeFail then (st, false)
    else
      ({ st with conexionFlujos := alistErase st.conexionFlujos idConexion }, true)

/-- `SDNController.borrar_conexion`: unknown id → `False` with no state
change; otherwise flows are removed best-effort (a failure only prints a
warning) and the registry entry is deleted unconditionally. -/
def borrarConexion (removeFail : Bool) (st : SDNState) (idConexion : String) :
    SDNState × Bool :=
  match alistFind st.conexiones idConexion with
  | none => (st, false)
  | some _ =>
    let st1 :=
      if (alistFind st.conexionFlujos idConexion).isSome then
        (eliminarFlujos removeFail st idConexion).1
      else st
    ({ st1 with conexiones := alistErase st1.conexiones idConexion }, true)

/-- A course authorizes the triple iff its state is `"DICTANDO"`, the user
code is a member, and some grant names the server and (case-insensitively)
contains the service name — the inner loop of `crear_conexion`. -/
def cursoAutoriza (codigoAlumno : String) (servidor : Servidor)
    (servicio : Servicio) (curso : Curso) : Bool :=
  curso.estado == "DICTANDO" && curso.alumnos.contains codigoAlumno &&
    curso.servidores.any (fun p =>
      p.1.nombre == servidor.nombre &&
        (p.2.map strLower).contains (strLower servicio.nombre))

/-- The authorization scan of `crear_conexion`: first matching course in
course-insertion order (Python dict iteration order), if any. -/
def autorizar (cursos : List (String × Curso)) (codigoAlumno : String)
    (servidor : Servidor) (servicio : Servicio) : Option Curso :=
  (cursos.find? (fun p => cursoAutoriza codigoAlumno servidor servicio p.2)).map
    (fun p => p.2)

/-- The hard-coded server MAC used by `crear_conexion` for the server's
attachment-point lookup. -/
def servidorMacSimulada : String := "fa:16:3e:6c:a0:7c"

/-- `SDNController.crear_conexion`. `newId` is the fresh `uuid4`-derived
connection id. Returns the new state and the boolean result. Python
truthiness of the attachment point (`if not dpid or not port`) is an empty
string / a zero port. -/
def crearConexion (devices : Option (List Device))
    (routeResp : Option (List (String × Nat))) (failAt : Option Nat)
    (newId : String) (st : SDNState)
    (codigoAlumno nombreServidor nombreServicio : String) : SDNState × Bool :=
  match alistFind st.alumnos codigoAlumno with
  | none => (st, false)
  | some alumno =>
    match alistFind st.servidores nombreServidor with
    | none => (st, false)
    | some servidor =>
      match servidor.servicios.find?
          (fun svc => strLower svc.nombre == strLower nombreServicio) with
      | none => (st, false)
      | some servicio =>
        match autorizar st.cursos codigoAlumno servidor servicio with
        | none => (st, false)
        | some _ =>
          let cx0 : Conexion :=
            { id := newId, alumno := alumno, servidor := servidor,
              servicio := servicio, ruta := [] }
          let st1 : SDNState :=
            { st with conexiones := alistInsert st.conexiones newId cx0 }
          let alumnoAp := getAttachmentPoint devices alumno.mac
          if alumnoAp.1 == "" || alumnoAp.2 == 0 then
            ({ st1 with conexiones := alistErase st1.conexiones newId }, false)
          else
            let servidorAp := getAttachmentPoint devices servidorMacSimulada
            if servidorAp.1 == "" || servidorAp.2 == 0 then
              ({ st1 with conexiones := alistErase st1.conexiones newId }, false)
            else
              let ruta := getRoute routeResp alumnoAp.1 alumnoAp.2 servidorAp.1 servidorAp.2
              if ruta.isEmpty then
                ({ st1 with conexiones := alistErase st1.conexiones newId }, false)
              else
                let cx : Conexion := { cx0 with ruta := ruta }
                let st2 : SDNState :=
                  { st1 with conexiones := alistInsert st1.conexiones newId cx }
                let res := buildRoute devices failAt st2 ruta cx
                if res.2 then (res.1, true)
                else ({ res.1 with conexiones := alistErase res.1.conexiones newId }, false)

/-- A service record of the YAML document (after `yaml.safe_load`). -/
structure ServicioDoc where
  nombre : String
  protocolo : String
  puerto : Nat
deriving DecidableEq, Repr

/-- A server record of the YAML document. -/
structure ServidorDoc where
  nombre : String
  ip : String
  servicios : List ServicioDoc
deriving DecidableEq, Repr

/-- A user record of the YAML document. -/
structure AlumnoDoc where
  nombre : String
  codigo : String
  mac : String
deriving DecidableEq, Repr

/-- A per-course server grant of the YAML document. -/
structure GrantDoc where
  nombre : String
  serviciosPermitidos : List String
deriving DecidableEq, Repr

/-- A course record of the YAML document. -/
structure CursoDoc where
  codigo : String
  nombre : String
  estado : String
  alumnos : List String
  servidores : List GrantDoc
deriving DecidableEq, Repr

/-- The whole catalog document (`datos` in the source), with every record
fully populated (the source skips records whose required keys are missing). -/
structure Datos where
  alumnos : List AlumnoDoc
  cursos : List CursoDoc
  servidores : List ServidorDoc
deriving DecidableEq, Repr

/-- Entity built from one server record of the document (nested service
records first, as in the source). -/
def importServidor (sd : ServidorDoc) : Servidor :=
  ⟨sd.nombre, sd.ip, sd.servicios.map (fun s => ⟨s.nombre, s.protocolo, s.puerto⟩)⟩

/-- Entity built from one user record of the document. -/
def importAlumno (ad : AlumnoDoc) : Alumno :=
  ⟨ad.nombre, ad.codigo, ad.mac⟩

/-- Entity built from one course record: member codes go through
`str(...).strip()` and `agregar_alumno` (deduplicating), and a grant is added
only when the named server exists in the already-imported server dict. -/
def importCurso (servidores : List (String × Servidor)) (cd : CursoDoc) : Curso :=
  let curso0 : Curso := ⟨cd.codigo, cd.nombre, cd.estado, [], []⟩
  let curso1 := cd.alumnos.foldl (fun c a => agregarAlumno c (strTrim a)) curso0
  cd.servidores.foldl
    (fun c g =>
      match alistFind servidores g.nombre with
      | some srv => agregarServidor c srv g.serviciosPermitidos
      | none => c)
    curso1

/-- `SDNController.importar_archivo` on an already-parsed document: the three
catalog dicts are cleared and refilled (servers first, then users, then
courses). `conexiones` / `conexion_flujos` are not touched. -/
def importarArchivo (st : SDNState) (datos : Datos) : SDNState :=
  let servidores := datos.servidores.foldl
    (fun acc sd => alistInsert acc sd.nombre (importServidor sd)) []
  let alumnos := datos.alumnos.foldl
    (fun acc ad => alistInsert acc ad.codigo (importAlumno ad)) []
  let cursos := datos.cursos.foldl
    (fun acc cd => alistInsert acc cd.codigo (importCurso servidores cd)) []
  { st with alumnos := alumnos, servidores := servidores, cursos := cursos }

/-- `SDNController.exportar_archivo`: rebuild the document from the three
catalog dicts, in dict iteration (= insertion) order. -/
def exportarArchivo (st : SDNState) : Datos :=
  { alumnos := st.alumnos.map (fun p => ⟨p.2.nombre, p.2.codigo, p.2.mac⟩),
    cursos := st.cursos.map (fun p =>
      ⟨p.2.codigo, p.2.nombre, p.2.estado, p.2.alumnos,
        p.2.servidores.map (fun q => ⟨q.1.nombre, q.2⟩)⟩),
    servidores := st.servidores.map (fun p =>
      ⟨p.2.nombre, p.2.ip, p.2.servicios.map (fun s => ⟨s.nombre, s.protocolo, s.puerto⟩)⟩) }

/-- Well-formedness of a document under which the import/export round trip
is exact: unique server names / user codes / course codes, member code lists
duplicate-free and already stripped of surrounding whitespace, and every
course grant naming an existing server. -/
def docWellFormed (datos : Datos) : Prop :=
  (datos.servidores.map ServidorDoc.nombre).Nodup ∧
  (datos.alumnos.map AlumnoDoc.codigo).Nodup ∧
  (datos.cursos.map CursoDoc.codigo).Nodup ∧
  ∀ cd ∈ datos.cursos,
    cd.alumnos.Nodup ∧ (∀ m ∈ cd.alumnos, strTrim m = m) ∧
    ∀ g ∈ cd.servidores, ∃ sd ∈ datos.servidores, sd.nombre = g.nombre

/-- The Connection Registry and the Installed Flow Set have the same key
set (the lockstep invariant of the spec). -/
def lockstep (st : SDNState) : Prop :=
  ∀ k, (alistFind st.conexiones k).isSome = (alistFind st.conexionFlujos k).isSome

/-! Concrete example data used by witnesses and counterexamples. -/

def demoServicio : Servicio := ⟨"web", "TCP", 80⟩

def demoServidor : Servidor := ⟨"S1", "10.0.0.1", [demoServicio]⟩

/-- The active demo course granting service `web` on `S1` to `a1` and `a2`. -/
def demoCurso : Curso :=
  ⟨"c1", "Redes", "DICTANDO", ["a1", "a2"], [(demoServidor, ["web"])]⟩

/-- A small catalog: `a1` (MAC in the static table) and `a2` (MAC unknown,
resolved by the fixed default) both enrolled in the active course `c1`,
which grants service `web` on server `S1`. -/
def demoState : SDNState :=
  { alumnos := [("a1", ⟨"Ana", "a1", "aa:51:aa:ba:72:41"⟩),
                ("a2", ⟨"Benito", "a2", "zz:zz"⟩)],
    servidores := [("S1", demoServidor)],
    cursos := [("c1", demoCurso)],
    conexiones := [],
    conexionFlujos := [] }

/-- The registered connection used by the teardown scenarios. -/
def teardownCx : Conexion :=
  ⟨"cx2", ⟨"Ana", "a1", "aa:51:aa:ba:72:41"⟩, demoServidor, demoServicio,
    [("00:00:5e:c7:6e:c6:11:4c", 3)]⟩

/-- A registered connection `cx2` with one tracked flow, used to exercise
teardown with a failing per-rule removal. -/
def teardownState : SDNState :=
  { alumnos := [], servidores := [], cursos := [],
    conexiones := [("cx2", teardownCx)],
    conexionFlujos := [("cx2", [FlowEntry.str "f1"])] }

/-- A lockstep state with one registered connection `cx3`, used to show the
invariant broken by a teardown whose per-rule removal raises. -/
def lockstepState : SDNState :=
  { alumnos := [], servidores := [], cursos := [],
    conexiones := [("cx3", ⟨"cx3", ⟨"Ana", "a1", "aa:51:aa:ba:72:41"⟩,
      demoServidor, demoServicio, [("00:00:5e:c7:6e:c6:11:4c", 3)]⟩)],
    conexionFlujos := [("cx3", [FlowEntry.str "f3"])] }

/-- A controller answer that matches `a1`'s MAC but reports attachment
port `0` (a Python-falsy port). -/
def portZeroDevices : Option (List Device) :=
  some [⟨["aa:51:aa:ba:72:41"], [("00:00:aa:51:aa:ba:72:41", 0)]⟩]

/-- A document accepted by the import although one course grant names a
server (`X`) that the document does not define. -/
def danglingGrantDoc : Datos :=
  ⟨[], [⟨"c1", "Net", "DICTANDO", [], [⟨"X", ["web"]⟩]⟩], []⟩

/-- A well-formed document for the round-trip witness. -/
def roundtripDoc : Datos :=
  ⟨[⟨"Ana", "a1", "aa:51:aa:ba:72:41"⟩],
   [⟨"c1", "Redes", "DICTANDO", ["a1"], [⟨"S1", ["web"]⟩]⟩],
   [⟨"S1", "10.0.0.1", [⟨"web", "TCP", 80⟩]⟩]⟩

/-! Library lemmas about the dict model. -/

theorem alistFind_eq_none_iff {α : Type} {l : List (String × α)} {k : String} :
    alistFind l k = none ↔ l.find? (fun p => p.1 == k) = none := by
  simp [alistFind]

theorem alistInsert_fresh {α : Type} {l : List (String × α)} {k : String} (v : α)
    (h : alistFind l k = none) : alistInsert l k v = l ++ [(k, v)] := by
  unfold alistInsert
  simp [alistFind_eq_none_iff.mp h]

theorem alistFind_append_right {α : Type} {l : List (String × α)} {k : String} (v : α)
    (h : alistFind l k = none) : alistFind (l ++ [(k, v)]) k = some v := by
  unfold alistFind at h ⊢
  rw [List.find?_append]
  simp only [Option.map_eq_none'] at h
  simp [h, List.find?]

theorem alistFind_append_ne {α : Type} {l : List (String × α)} {k k' : String} (v : α)
    (h : k' ≠ k) : alistFind (l ++ [(k, v)]) k' = alistFind l k' := by
  unfold alistFind
  rw [List.find?_append]
  cases hf : l.find? (fun p => p.1 == k') with
  | some p => simp
  | none =>
    have : (k == k') = false := by
      simp only [beq_eq_false_iff_ne, ne_eq]
      exact fun hkk => h hkk.symm
    simp [List.find?, this]

theorem alistFind_insert_fresh_self {α : Type} {l : List (String × α)} {k : String} (v : α)
    (h : alistFind l k = none) : alistFind (alistInsert l k v) k = some v := by
  rw [alistInsert_fresh v h]
  exact alistFind_append_right v h

theorem alistFind_insert_fresh_ne {α : Type} {l : List (String × α)} {k k' : String} (v : α)
    (hfresh : alistFind l k = none) (h : k' ≠ k) :
    alistFind (alistInsert l k v) k' = alistFind l k' := by
  rw [alistInsert_fresh v hfresh]
  exact alistFind_append_ne v h

theorem alistFind_erase_self {α : Type} (l : List (String × α)) (k : String) :
    alistFind (alistErase l k) k = none := by
  unfold alistFind alistErase
  simp only [Option.map_eq_none']
  rw [List.find?_eq_none]
  intro p hp
  have := List.of_mem_filter hp
  simp only [bne_iff_ne, ne_eq, decide_eq_true_eq] at this
  simp [this]

theorem alistFind_erase_ne {α : Type} {l : List (String × α)} {k k' : String}
    (h : k' ≠ k) : alistFind (alistErase l k) k' = alistFind l k' := by
  unfold alistFind alistErase
  induction l with
  | nil => rfl
  | cons p t ih =>
    by_cases hpk : p.1 = k
    · have h1 : (p.1 != k) = false := by simp [hpk]
      have h2 : (p.1 == k') = false := by
        simp only [beq_eq_false_iff_ne, ne_eq, hpk]
        exact fun hkk => h hkk.symm
      simp only [List.filter_cons, h1, List.find?, h2, Bool.false_eq_true, if_false,
        cond_false]
      exact ih
    · have h1 : (p.1 != k) = true := by simp [hpk]
      by_cases hpk' : p.1 = k'
      · have h2 : (p.1 == k') = true := by simp [hpk']
        simp only [List.filter_cons, h1, if_true, List.find?, h2, cond_true]
      · have h2 : (p.1 == k') = false := by simp [hpk']
        simp only [List.filter_cons, h1, if_true, List.find?, h2, cond_false]
        exact ih

theorem alistErase_append {α : Type} (l : List (String × α)) (k : String) (v : α) :
    alistErase (l ++ [(k, v)]) k = alistErase l k := by
  unfold alistErase
  simp [List.filter_append]

theorem alistErase_fresh {α : Type} {l : List (String × α)} {k : String}
    (h : alistFind l k = none) : alistErase l k = l := by
  unfold alistErase
  have h' := alistFind_eq_none_iff.mp h
  rw [List.find?_eq_none] at h'
  rw [List.filter_eq_self]
  intro p hp
  have := h' p hp
  simp only [Bool.not_eq_true] at this
  simp [bne, this]

theorem map_keep_of_no_key {α : Type} {k : String} (w : α) :
    ∀ l : List (String × α), (∀ p ∈ l, ¬((p.1 == k) = true)) →
      l.map (fun p => if (p.1 == k) = true then (k, w) else p) = l := by
  intro l
  induction l with
  | nil => intro _; rfl
  | cons p t ih =>
    intro hall
    have hp : ((p.1 == k) = true) = False := by
      simp [hall p (List.mem_cons_self p t)]
    simp only [List.map_cons, hp, if_false]
    rw [ih (fun q hq => hall q (List.mem_cons_of_mem p hq))]

theorem alistInsert_update_append {α : Type} {l : List (String × α)} {k : String} (v w : α)
    (h : alistFind l k = none) : alistInsert (l ++ [(k, v)]) k w = l ++ [(k, w)] := by
  unfold alistInsert
  have hsome : ((l ++ [(k, v)]).find? (fun p => p.1 == k)).isSome = true := by
    rw [List.find?_append]
    have h' := alistFind_eq_none_iff.mp h
    simp [h', List.find?]
  rw [if_pos hsome, List.map_append]
  have h' := alistFind_eq_none_iff.mp h
  rw [List.find?_eq_none] at h'
  congr 1
  · exact map_keep_of_no_key w l h'
  · simp [List.map]

theorem routeEntries_length (cid mac ip proto : String) (puerto : Nat) :
    ∀ (inPort : Nat) (ruta : List (String × Nat)),
      (routeEntries cid mac ip proto puerto inPort ruta).length = 4 * ruta.length := by
  intro inPort ruta
  induction ruta generalizing inPort with
  | nil => rfl
  | cons hd t ih =>
    cases hd with
    | mk dpid outPort =>
      simp [routeEntries, hopEntries, ih outPort]
      omega

theorem find?_first {α : Type} (p : α → Bool) :
    ∀ (l : List α) (x : α), l.find? p = some x →
      ∃ l1 l2, l = l1 ++ x :: l2 ∧ p x = true ∧ ∀ y ∈ l1, p y = false := by
  intro l
  induction l with
  | nil => intro x h; cases h
  | cons a t ih =>
    intro x h
    cases hpa : p a with
    | true =>
      simp only [List.find?, hpa, cond_true, Option.some.injEq] at h
      subst h
      exact ⟨[], t, rfl, hpa, by intro y hy; cases hy⟩
    | false =>
      simp only [List.find?, hpa, cond_false] at h
      obtain ⟨l1, l2, heq, hpx, hall⟩ := ih x h
      refine ⟨a :: l1, l2, by simp [heq], hpx, ?_⟩
      intro y hy
      cases hy with
      | head => exact hpa
      | tail _ hy' => exact hall y hy'

/-- C4: with user, server and (case-insensitive) service resolved, the
authorization scan of `crear_conexion` succeeds iff some course in the
catalog authorizes the triple; the reported course is the first authorizing
course in course-insertion order; and when no course authorizes,
`crear_conexion` returns `False` leaving the state (so in particular the
Connection Registry) unchanged — no Connection is created. -/
theorem autorizar_correct (st : SDNState) (ca ns nsvc : String)
    (alumno : Alumno) (servidor : Servidor) (servicio : Servicio)
    (h1 : alistFind st.alumnos ca = some alumno)
    (h2 : alistFind st.servidores ns = some servidor)
    (h3 : servidor.servicios.find?
      (fun svc => strLower svc.nombre == strLower nsvc) = some servicio) :
    ((autorizar st.cursos ca servidor servicio).isSome = true ↔
      ∃ p ∈ st.cursos, cursoAutoriza ca servidor servicio p.2 = true) ∧
    (∀ c, autorizar st.cursos ca servidor servicio = some c →
      cursoAutoriza ca servidor servicio c = true ∧
      ∃ l1 k l2, st.cursos = l1 ++ (k, c) :: l2 ∧
        ∀ q ∈ l1, cursoAutoriza ca servidor servicio q.2 = false) ∧
    (∀ devices routeResp failAt newId,
      autorizar st.cursos ca servidor servicio = none →
      crearConexion devices routeResp failAt newId st ca ns nsvc = (st, false)) := by
  refine ⟨?_, ?_, ?_⟩
  · unfold autorizar
    rw [Option.isSome_map']
    exact List.find?_isSome
  · intro c hc
    unfold autorizar at hc
    cases hf : st.cursos.find? (fun p => cursoAutoriza ca servidor servicio p.2) with
    | none => rw [hf] at hc; cases hc
    | some q =>
      rw [hf] at hc
      simp only [Option.map_some', Option.some.injEq] at hc
      obtain ⟨l1, l2, heq, hpq, hall⟩ := find?_first _ st.cursos q hf
      subst hc
      refine ⟨hpq, l1, q.1, l2, ?_, hall⟩
      rw [heq]
  · intro devices routeResp failAt newId hnone
    unfold crearConexion
    simp only [h1, h2, h3, hnone]

/-- Witness for C4: the demo catalog authorizes `(a1, S1, web)` through
course `c1`, and a triple denied by every course leaves the state unchanged. -/
theorem autorizar_correct_witness :
    (((autorizar demoState.cursos "a1" demoServidor demoServicio).isSome = true ↔
      ∃ p ∈ demoState.cursos,
        cursoAutoriza "a1" demoServidor demoServicio p.2 = true) ∧
    (∀ c, autorizar demoState.cursos "a1" demoServidor demoServicio = some c →
      cursoAutoriza "a1" demoServidor demoServicio c = true ∧
      ∃ l1 k l2, demoState.cursos = l1 ++ (k, c) :: l2 ∧
        ∀ q ∈ l1, cursoAutoriza "a1" demoServidor demoServicio q.2 = false) ∧
    (∀ devices routeResp failAt newId,
      autorizar demoState.cursos "a1" demoServidor demoServicio = none →
      crearConexion devices routeResp failAt newId demoState "a1" "S1" "web" =
        (demoState, false))) ∧
    (autorizar demoState.cursos "a1" demoServidor demoServicio).isSome = true :=
  ⟨autorizar_correct demoState "a1" "S1" "web"
    ⟨"Ana", "a1", "aa:51:aa:ba:72:41"⟩ demoServidor demoServicio
    (by decide) (by decide) (by decide), by decide⟩

/-- C5 (evaluating the code at the failing input): a successful one-hop
install for `a2` tracks exactly four entries for the connection, but the
third and fourth tracked entries are the ARP flow *dictionaries*
(`flow_arp_forward` / `flow_arp_reverse`), not the deterministic identifier
strings `flow_name_arp_forward` / `flow_name_arp_reverse` the spec
describes: `build_route` appends the dict variables instead of the name
variables (source lines 660 and 664). -/
theorem tracked_arp_entries_are_dicts :
    (crearConexion none none none "cx5" demoState "a2" "S1" "web").2 = true ∧
    alistFind (crearConexion none none none "cx5" demoState "a2" "S1"
      "web").1.conexionFlujos "cx5" =
      some [FlowEntry.str (fwdName "cx5" "00:00:5e:c7:6e:c6:11:4c" 3 3),
            FlowEntry.str (revName "cx5" "00:00:5e:c7:6e:c6:11:4c" 3 3),
            FlowEntry.dict (flowArpForward "cx5" "00:00:5e:c7:6e:c6:11:4c" 3 3 "zz:zz"),
            FlowEntry.dict (flowArpReverse "cx5" "00:00:5e:c7:6e:c6:11:4c" 3 3 "zz:zz")] := by
  decide

/-- C9 counterexample: the claim says the lookup always yields a truthy
port, making the rejection branches of `crear_conexion` unreachable. But a
controller-matched attachment point is returned verbatim: with the
controller reporting port `0` for `a1`, `get_attachment_point` returns a
falsy port and the authorized `crear_conexion` takes the rejection branch
(returns `False`, connection deleted) — although the same request succeeds
when the controller is unreachable. -/
theorem controller_port_zero_reaches_rejection :
    getAttachmentPoint portZeroDevices "aa:51:aa:ba:72:41" =
      ("00:00:aa:51:aa:ba:72:41", 0) ∧
    (autorizar demoState.cursos "a1" demoServidor demoServicio).isSome = true ∧
    (crearConexion portZeroDevices none none "cx9" demoState "a1" "S1" "web").2 = false ∧
    alistFind (crearConexion portZeroDevices none none "cx9" demoState "a1" "S1"
      "web").1.conexiones "cx9" = none ∧
    (crearConexion none none none "cx9" demoState "a1" "S1" "web").2 = true := by
  decide

/-- C9 (amended): attachment-point lookup is total, and whenever the
controller contributes no attachment point (unreachable, non-200, or no
matching device with a non-empty attachment list — `deviceLookup = none`),
the static-table/default fallback guarantees a non-empty switch id and a
non-zero port, so in the degraded mode the rejection branches of
`crear_conexion` cannot fire; only a controller-supplied falsy attachment
point can reach them. -/
theorem attachment_fallback_truthy (devices : Option (List Device)) (mac : String)
    (h : deviceLookup devices mac = none) :
    (getAttachmentPoint devices mac).1 ≠ "" ∧ (getAttachmentPoint devices mac).2 ≠ 0 := by
  unfold getAttachmentPoint
  rw [h]
  cases hf : macMap.find? (fun p => chrsSub (normMac mac).data (normMac p.1).data) with
  | none => exact ⟨by decide, by decide⟩
  | some p =>
    have hall : ∀ q ∈ macMap, q.2.1 ≠ "" ∧ q.2.2 ≠ 0 := by decide
    exact hall p (List.mem_of_find?_eq_some hf)

/-- Witness for C9's amended theorem: an unknown MAC with the controller
unreachable resolves to the fixed default, truthy on both components. -/
theorem attachment_fallback_truthy_witness :
    (getAttachmentPoint none "w9").1 ≠ "" ∧ (getAttachmentPoint none "w9").2 ≠ 0 :=
  attachment_fallback_truthy none "w9" rfl

/-- C3 counterexample: `lockstepState` satisfies the key-set invariant, but
after a teardown whose per-rule removal raises (`removeFail = true`) the
Registry no longer contains `cx3` while the Installed Flow Set still does:
the invariant is not preserved by `borrar_conexion` with failing removal. -/
theorem lockstep_broken_by_failed_removal :
    lockstep lockstepState ∧ ¬ lockstep (borrarConexion true lockstepState "cx3").1 := by
  constructor
  · intro k
    by_cases h : ("cx3" : String) = k
    · subst h; decide
    · have hb : (("cx3" : String) == k) = false := by
        simp only [beq_eq_false_iff_ne, ne_eq]
        exact h
      simp [lockstepState, alistFind, List.find?, hb]
  · intro hl
    have h1 := hl "cx3"
    have e1 : (borrarConexion true lockstepState "cx3").1 =
        ⟨[], [], [], [], [("cx3", [FlowEntry.str "f3"])]⟩ := by decide
    rw [e1] at h1
    exact absurd h1 (by decide)

/-- C3 (amended): the key-set equality of the Connection Registry and the
Installed Flow Set holds at quiescent states and is preserved by
`crear_conexion` (for a fresh connection id) on every one of its paths
(success, any rejection, and install failure), and by `borrar_conexion`
whose per-rule removal raises no exception. (A `borrar_conexion` with
failing removal breaks it — see the counterexample.) -/
theorem lockstep_preserved (devices : Option (List Device))
    (routeResp : Option (List (String × Nat))) (failAt : Option Nat)
    (newId ca ns nsvc idc : String) (st : SDNState)
    (hl : lockstep st) (hfresh : alistFind st.conexiones newId = none) :
    lockstep (crearConexion devices routeResp failAt newId st ca ns nsvc).1 ∧
    lockstep (borrarConexion false st idc).1 := by
  have hfreshF : alistFind st.conexionFlujos newId = none := by
    cases hh : alistFind st.conexionFlujos newId with
    | none => rfl
    | some v =>
      have h := hl newId
      rw [hfresh, hh] at h
      simp at h
  constructor
  · unfold crearConexion
    cases h1 : alistFind st.alumnos ca with
    | none => exact hl
    | some alumno =>
      dsimp only
      cases h2 : alistFind st.servidores ns with
      | none => exact hl
      | some servidor =>
        dsimp only
        cases h3 : servidor.servicios.find?
            (fun svc => strLower svc.nombre == strLower nsvc) with
        | none => exact hl
        | some servicio =>
          dsimp only
          cases h4 : autorizar st.cursos ca servidor servicio with
          | none => exact hl
          | some curso =>
            dsimp only
            cases hb1 : ((getAttachmentPoint devices alumno.mac).1 == "" ||
                (getAttachmentPoint devices alumno.mac).2 == 0) with
            | true =>
              simp only [hb1, if_true]
              intro k
              rw [alistInsert_fresh _ hfresh, alistErase_append,
                alistErase_fresh hfresh]
              exact hl k
            | false =>
              simp only [hb1, Bool.false_eq_true, if_false]
              cases hb2 : ((getAttachmentPoint devices servidorMacSimulada).1 == "" ||
                  (getAttachmentPoint devices servidorMacSimulada).2 == 0) with
              | true =>
                simp only [hb2, if_true]
                intro k
                rw [alistInsert_fresh _ hfresh, alistErase_append,
                  alistErase_fresh hfresh]
                exact hl k
              | false =>
                simp only [hb2, Bool.false_eq_true, if_false]
                cases hb3 : (getRoute routeResp
                    (getAttachmentPoint devices alumno.mac).1
                    (getAttachmentPoint devices alumno.mac).2
                    (getAttachmentPoint devices servidorMacSimulada).1
                    (getAttachmentPoint devices servidorMacSimulada).2).isEmpty with
                | true =>
                  simp only [hb3, if_true]
                  intro k
                  rw [alistInsert_fresh _ hfresh, alistErase_append,
                    alistErase_fresh hfresh]
                  exact hl k
                | false =>
                  simp only [hb3, Bool.false_eq_true, if_false]
                  unfold buildRoute
                  simp only [hb3, Bool.false_eq_true, if_false]
                  cases failAt with
                  | none =>
                    dsimp only
                    rw [if_pos (Eq.refl true)]
                    dsimp only
                    intro k
                    by_cases hk : k = newId
                    · subst hk
                      rw [alistInsert_fresh _ hfresh,
                        alistInsert_update_append _ _ hfresh,
                        alistFind_append_right _ hfresh,
                        alistInsert_fresh _ hfreshF,
                        alistFind_append_right _ hfreshF]
                      rfl
                    · rw [alistInsert_fresh _ hfresh,
                        alistInsert_update_append _ _ hfresh,
                        alistFind_append_ne _ hk,
                        alistInsert_fresh _ hfreshF,
                        alistFind_append_ne _ hk]
                      exact hl k
                  | some kf =>
                    dsimp only
                    by_cases hkf : kf < (routeEntries newId alumno.mac
                        servidor.ip servicio.protocolo servicio.puerto
                        (getAttachmentPoint devices alumno.mac).2
                        (getRoute routeResp
                          (getAttachmentPoint devices alumno.mac).1
                          (getAttachmentPoint devices alumno.mac).2
                          (getAttachmentPoint devices servidorMacSimulada).1
                          (getAttachmentPoint devices servidorMacSimulada).2)).length
                    · rw [if_pos hkf]
                      dsimp only
                      rw [if_neg Bool.false_ne_true]
                      dsimp only
                      intro k
                      rw [alistInsert_fresh _ hfresh,
                        alistInsert_update_append _ _ hfresh,
                        alistErase_append, alistErase_fresh hfresh]
                      exact hl k
                    · rw [if_neg hkf]
                      dsimp only
                      rw [if_pos (Eq.refl true)]
                      dsimp only
                      intro k
                      by_cases hk : k = newId
                      · subst hk
                        rw [alistInsert_fresh _ hfresh,
                          alistInsert_update_append _ _ hfresh,
                          alistFind_append_right _ hfresh,
                          alistInsert_fresh _ hfreshF,
                          alistFind_append_right _ hfreshF]
                        rfl
                      · rw [alistInsert_fresh _ hfresh,
                          alistInsert_update_append _ _ hfresh,
                          alistFind_append_ne _ hk,
                          alistInsert_fresh _ hfreshF,
                          alistFind_append_ne _ hk]
                        exact hl k
  · unfold borrarConexion
    cases hc : alistFind st.conexiones idc with
    | none => exact hl
    | some cx =>
      cases hfj : alistFind st.conexionFlujos idc with
      | none =>
        simp only [hfj, Option.isSome_none, Bool.false_eq_true, if_false]
        intro k
        by_cases hk : k = idc
        · subst hk
          rw [alistFind_erase_self, hfj]
          rfl
        · rw [alistFind_erase_ne hk]
          exact hl k
      | some fl =>
        simp only [hfj, Option.isSome_some, if_true]
        unfold eliminarFlujos
        simp only [hfj, Bool.false_eq_true, if_false]
        intro k
        by_cases hk : k = idc
        · subst hk
          rw [alistFind_erase_self, alistFind_erase_self]
          rfl
        · rw [alistFind_erase_ne hk, alistFind_erase_ne hk]
          exact hl k

/-- Witness for C3's amended theorem at the empty state, where the lockstep
and freshness hypotheses hold trivially. -/
theorem lockstep_preserved_witness :
    lockstep (crearConexion none none none "w3" emptyState "a" "s" "x").1 ∧
    lockstep (borrarConexion false emptyState "y").1 :=
  lockstep_preserved none none none "w3" "a" "s" "x" "y" emptyState
    (fun _ => rfl) rfl

/-- C6: when the controller's route query fails (unreachable, non-200 status
or exception — all modelled by `routeResp = none`), `get_route` returns the
synthesized fallback path: a single hop `(shared switch, destination port)`
when the two switch ids coincide, otherwise the two-hop path through the
source switch (port 1) and the destination switch; in particular the
fallback is never empty. -/
theorem getRoute_failure_fallback (s : String) (sp : Nat) (d : String) (dp : Nat) :
    getRoute none s sp d dp =
      (if s == d then [(s, dp)] else [(s, 1), (d, dp)]) ∧
    getRoute none s sp d dp ≠ [] := by
  refine ⟨rfl, ?_⟩
  unfold getRoute
  by_cases h : (s == d) = true <;> simp [h]

/-- C8: `Curso.agregar_alumno` with an already-registered member code is a
no-op: the member list (hence its length) is unchanged. -/
theorem agregarAlumno_idempotent (c : Curso) (codigo : String)
    (h : c.alumnos.contains codigo = true) :
    agregarAlumno c codigo = c ∧
    (agregarAlumno c codigo).alumnos.length = c.alumnos.length := by
  have he : agregarAlumno c codigo = c := by
    unfold agregarAlumno
    rw [if_pos h]
  exact ⟨he, by rw [he]⟩

/-- Witness for C8 at a concrete course that already contains member `a1`. -/
theorem agregarAlumno_idempotent_witness :
    agregarAlumno demoCurso "a1" = demoCurso ∧
    (agregarAlumno demoCurso "a1").alumnos.length = demoCurso.alumnos.length :=
  agregarAlumno_idempotent demoCurso "a1" (by decide)

/-- C10: `borrar_conexion` on an unregistered id returns `False` and leaves
the entire controller state (registry, flow set, and catalog) unchanged. -/
theorem borrarConexion_unknown_noop (removeFail : Bool) (st : SDNState) (idc : String)
    (h : alistFind st.conexiones idc = none) :
    borrarConexion removeFail st idc = (st, false) := by
  unfold borrarConexion
  rw [h]

/-- Witness for C10: deleting an id that is not registered in the demo
catalog state. -/
theorem borrarConexion_unknown_noop_witness :
    borrarConexion false demoState "missing" = (demoState, false) :=
  borrarConexion_unknown_noop false demoState "missing" (by decide)

/-- C2 counterexample: a teardown whose per-rule removal raises (the `except`
branch of `eliminar_flujos`, `removeFail = true`) returns `True` and clears
the Connection Registry, but the Installed Flow Set entry for the connection
is still present afterwards — the claim's "absent from both" is false. -/
theorem teardown_leaves_flow_entry :
    (borrarConexion true teardownState "cx2").2 = true ∧
    alistFind (borrarConexion true teardownState "cx2").1.conexiones "cx2" = none ∧
    alistFind (borrarConexion true teardownState "cx2").1.conexionFlujos "cx2" =
      some [FlowEntry.str "f1"] := by
  decide

/-- C2 (amended): after `borrar_conexion` on a registered id returns, the
result is `True` and the id is absent from the Connection Registry; it is
absent from the Installed Flow Set when per-rule removal raised no
exception, but when removal raises, the Installed Flow Set is left exactly
as it was (the entry survives). -/
theorem borrarConexion_teardown (removeFail : Bool) (st : SDNState) (idc : String)
    (cx : Conexion) (h : alistFind st.conexiones idc = some cx) :
    (borrarConexion removeFail st idc).2 = true ∧
    alistFind (borrarConexion removeFail st idc).1.conexiones idc = none ∧
    (removeFail = false →
      alistFind (borrarConexion removeFail st idc).1.conexionFlujos idc = none) ∧
    (removeFail = true →
      (borrarConexion removeFail st idc).1.conexionFlujos = st.conexionFlujos) := by
  unfold borrarConexion
  rw [h]
  cases hf : (alistFind st.conexionFlujos idc) with
  | none =>
    simp only [Option.isSome_none, Bool.false_eq_true, if_false]
    refine ⟨?_, ?_, ?_, ?_⟩
    · trivial
    · exact alistFind_erase_self _ _
    · intro _; exact hf
    · intro _; trivial
  | some fl =>
    simp only [Option.isSome_some, if_true]
    unfold eliminarFlujos
    rw [hf]
    cases removeFail with
    | false =>
      simp only [Bool.false_eq_true, if_false]
      refine ⟨?_, ?_, ?_, ?_⟩
      · trivial
      · exact alistFind_erase_self _ _
      · intro _; exact alistFind_erase_self _ _
      · intro hcontra; exact absurd hcontra (by simp)
    | true =>
      simp only [if_true]
      refine ⟨?_, ?_, ?_, ?_⟩
      · trivial
      · exact alistFind_erase_self _ _
      · intro hcontra; exact absurd hcontra (by simp)
      · intro _; trivial

/-- C1: if, during `crear_conexion`, every stage up to flow installation
succeeds (user, server and service found, a course authorizes, both
attachment points are truthy, the route is non-empty) and the installation
raises at rule step `k` of the `4·n` rule installs (`failAt = some k`,
`k < 4·n`), then `crear_conexion` returns `False`, no rule identifier is
tracked for the new connection (the tracked list is only recorded after all
hops succeed, so the partial local list is discarded), and the connection id
is absent from the Connection Registry (it is deleted on the failure path). -/
theorem install_failure_leaves_no_trace
    (devices : Option (List Device)) (routeResp : Option (List (String × Nat)))
    (k : Nat) (newId : String) (st : SDNState) (ca ns nsvc : String)
    (alumno : Alumno) (servidor : Servidor) (servicio : Servicio)
    (h1 : alistFind st.alumnos ca = some alumno)
    (h2 : alistFind st.servidores ns = some servidor)
    (h3 : servidor.servicios.find?
      (fun svc => strLower svc.nombre == strLower nsvc) = some servicio)
    (h4 : (autorizar st.cursos ca servidor servicio).isSome = true)
    (h5 : ((getAttachmentPoint devices alumno.mac).1 == "" ||
           (getAttachmentPoint devices alumno.mac).2 == 0) = false)
    (h6 : ((getAttachmentPoint devices servidorMacSimulada).1 == "" ||
           (getAttachmentPoint devices servidorMacSimulada).2 == 0) = false)
    (h7 : (getRoute routeResp (getAttachmentPoint devices alumno.mac).1
            (getAttachmentPoint devices alumno.mac).2
            (getAttachmentPoint devices servidorMacSimulada).1
            (getAttachmentPoint devices servidorMacSimulada).2).isEmpty = false)
    (h8 : k < 4 * (getRoute routeResp (getAttachmentPoint devices alumno.mac).1
            (getAttachmentPoint devices alumno.mac).2
            (getAttachmentPoint devices servidorMacSimulada).1
            (getAttachmentPoint devices servidorMacSimulada).2).length)
    (h9 : alistFind st.conexionFlujos newId = none) :
    (crearConexion devices routeResp (some k) newId st ca ns nsvc).2 = false ∧
    alistFind (crearConexion devices routeResp (some k) newId st ca ns
      nsvc).1.conexionFlujos newId = none ∧
    alistFind (crearConexion devices routeResp (some k) newId st ca ns
      nsvc).1.conexiones newId = none := by
  obtain ⟨curso, hcur⟩ := Option.isSome_iff_exists.mp h4
  have hklt : k < (routeEntries newId alumno.mac servidor.ip servicio.protocolo
      servicio.puerto (getAttachmentPoint devices alumno.mac).2
      (getRoute routeResp (getAttachmentPoint devices alumno.mac).1
        (getAttachmentPoint devices alumno.mac).2
        (getAttachmentPoint devices servidorMacSimulada).1
        (getAttachmentPoint devices servidorMacSimulada).2)).length := by
    rw [routeEntries_length]
    exact h8
  unfold crearConexion buildRoute
  simp only [h1, h2, h3, hcur, h5, Bool.false_eq_true, if_false, h6, h7, hklt, if_true]
  exact ⟨trivial, h9, alistFind_erase_self _ _⟩

/-- Witness for C1: in the demo catalog, installation of the very first rule
(`failAt = some 0`) of `a1`'s authorized connection to `web` on `S1` fails;
the result is `False` with nothing tracked and nothing registered. -/
theorem install_failure_leaves_no_trace_witness :
    (crearConexion none none (some 0) "w1" demoState "a1" "S1" "web").2 = false ∧
    alistFind (crearConexion none none (some 0) "w1" demoState "a1" "S1"
      "web").1.conexionFlujos "w1" = none ∧
    alistFind (crearConexion none none (some 0) "w1" demoState "a1" "S1"
      "web").1.conexiones "w1" = none :=
  install_failure_leaves_no_trace none none 0 "w1" demoState "a1" "S1" "web"
    ⟨"Ana", "a1", "aa:51:aa:ba:72:41"⟩ demoServidor demoServicio
    (by decide) (by decide) (by decide) (by decide) (by decide) (by decide)
    (by decide) (by decide) (by decide)

theorem foldl_alistInsert_fresh {α β : Type} (key : α → String) (val : α → β) :
    ∀ (l : List α) (acc : List (String × β)),
      (∀ a ∈ l, alistFind acc (key a) = none) → (l.map key).Nodup →
      List.foldl (fun acc a => alistInsert acc (key a) (val a)) acc l =
        acc ++ l.map (fun a => (key a, val a)) := by
  intro l
  induction l with
  | nil => intro acc _ _; simp
  | cons a t ih =>
    intro acc hfr hnd
    simp only [List.map_cons, List.nodup_cons] at hnd
    simp only [List.foldl_cons, List.map_cons]
    rw [alistInsert_fresh _ (hfr a (List.mem_cons_self a t))]
    rw [ih (acc ++ [(key a, val a)]) ?_ hnd.2]
    · simp
    · intro b hb
      rw [alistFind_append_ne]
      · exact hfr b (List.mem_cons_of_mem a hb)
      · intro he
        exact hnd.1 (he ▸ List.mem_map.mpr ⟨b, hb, rfl⟩)

theorem foldl_agregarAlumno_append :
    ∀ (ms : List String) (c : Curso),
      (∀ m ∈ ms, strTrim m = m) → ms.Nodup → (∀ m ∈ ms, m ∉ c.alumnos) →
      ms.foldl (fun c a => agregarAlumno c (strTrim a)) c =
        { c with alumnos := c.alumnos ++ ms } := by
  intro ms
  induction ms with
  | nil => intro c _ _ _; simp
  | cons m t ih =>
    intro c htrim hnd hmem
    simp only [List.nodup_cons] at hnd
    simp only [List.foldl_cons]
    rw [htrim m (List.mem_cons_self m t)]
    have hc : c.alumnos.contains m = false := by
      simpa using hmem m (List.mem_cons_self m t)
    rw [show agregarAlumno c m = { c with alumnos := c.alumnos ++ [m] } from by
      unfold agregarAlumno
      simp only [hc, Bool.false_eq_true, if_false]]
    rw [ih { c with alumnos := c.alumnos ++ [m] } ?_ hnd.2 ?_]
    · simp
    · intro m' hm'
      exact htrim m' (List.mem_cons_of_mem m hm')
    · intro m' hm' hmm
      rcases List.mem_append.mp hmm with h | h
      · exact hmem m' (List.mem_cons_of_mem m hm') h
      · have he : m' = m := by simpa using h
        exact hnd.1 (he ▸ hm')

theorem alistFind_val_name {S : List (String × Servidor)} {k : String} {srv : Servidor}
    (hS : ∀ p ∈ S, p.2.nombre = p.1) (h : alistFind S k = some srv) :
    srv.nombre = k := by
  unfold alistFind at h
  cases hf : S.find? (fun p => p.1 == k) with
  | none => rw [hf] at h; cases h
  | some p =>
    rw [hf] at h
    simp only [Option.map_some', Option.some.injEq] at h
    have h1 := List.find?_some hf
    rw [← h, hS p (List.mem_of_find?_eq_some hf)]
    exact eq_of_beq h1

theorem grantFold_fields (S : List (String × Servidor))
    (hS : ∀ p ∈ S, p.2.nombre = p.1) :
    ∀ (gs : List GrantDoc) (c : Curso),
      (∀ g ∈ gs, (alistFind S g.nombre).isSome = true) →
      (gs.foldl (fun c g =>
          match alistFind S g.nombre with
          | some srv => agregarServidor c srv g.serviciosPermitidos
          | none => c) c).codigo = c.codigo ∧
      (gs.foldl (fun c g =>
          match alistFind S g.nombre with
          | some srv => agregarServidor c srv g.serviciosPermitidos
          | none => c) c).nombre = c.nombre ∧
      (gs.foldl (fun c g =>
          match alistFind S g.nombre with
          | some srv => agregarServidor c srv g.serviciosPermitidos
          | none => c) c).estado = c.estado ∧
      (gs.foldl (fun c g =>
          match alistFind S g.nombre with
          | some srv => agregarServidor c srv g.serviciosPermitidos
          | none => c) c).alumnos = c.alumnos ∧
      (gs.foldl (fun c g =>
          match alistFind S g.nombre with
          | some srv => agregarServidor c srv g.serviciosPermitidos
          | none => c) c).servidores.map (fun q => GrantDoc.mk q.1.nombre q.2) =
        c.servidores.map (fun q => GrantDoc.mk q.1.nombre q.2) ++ gs := by
  intro gs
  induction gs with
  | nil => intro c _; exact ⟨rfl, rfl, rfl, rfl, by simp⟩
  | cons g t ih =>
    intro c hall
    obtain ⟨srv, hsrv⟩ :=
      Option.isSome_iff_exists.mp (hall g (List.mem_cons_self g t))
    simp only [List.foldl_cons, hsrv]
    obtain ⟨e1, e2, e3, e4, e5⟩ := ih (agregarServidor c srv g.serviciosPermitidos)
      (fun g' hg' => hall g' (List.mem_cons_of_mem g hg'))
    refine ⟨e1, e2, e3, e4, ?_⟩
    rw [e5]
    show ((c.servidores ++ [(srv, g.serviciosPermitidos)]).map
        (fun q => GrantDoc.mk q.1.nombre q.2)) ++ t =
      c.servidores.map (fun q => GrantDoc.mk q.1.nombre q.2) ++ g :: t
    rw [List.map_append, List.append_assoc]
    simp only [List.map_cons, List.map_nil, List.singleton_append]
    rw [alistFind_val_name hS hsrv]

theorem importCurso_roundtrip (S : List (String × Servidor))
    (hS : ∀ p ∈ S, p.2.nombre = p.1) (cd : CursoDoc)
    (htrim : ∀ m ∈ cd.alumnos, strTrim m = m) (hnd : cd.alumnos.Nodup)
    (hg : ∀ g ∈ cd.servidores, (alistFind S g.nombre).isSome = true) :
    (importCurso S cd).codigo = cd.codigo ∧
    (importCurso S cd).nombre = cd.nombre ∧
    (importCurso S cd).estado = cd.estado ∧
    (importCurso S cd).alumnos = cd.alumnos ∧
    (importCurso S cd).servidores.map (fun q => GrantDoc.mk q.1.nombre q.2) =
      cd.servidores := by
  unfold importCurso
  dsimp only
  rw [foldl_agregarAlumno_append cd.alumnos ⟨cd.codigo, cd.nombre, cd.estado, [], []⟩
    htrim hnd (by intro m _ hm; cases hm)]
  obtain ⟨e1, e2, e3, e4, e5⟩ := grantFold_fields S hS cd.servidores
    { codigo := cd.codigo, nombre := cd.nombre, estado := cd.estado,
      alumnos := [] ++ cd.alumnos, servidores := [] } hg
  exact ⟨e1, e2, e3, e4, e5⟩

theorem export_alumnos_roundtrip :
    ∀ as : List AlumnoDoc,
      (as.map (fun ad => (ad.codigo, importAlumno ad))).map
        (fun p => AlumnoDoc.mk p.2.nombre p.2.codigo p.2.mac) = as := by
  intro as
  induction as with
  | nil => rfl
  | cons ad t ih =>
    simp only [List.map_cons, ih]
    rfl

theorem export_servidores_roundtrip :
    ∀ ss : List ServidorDoc,
      (ss.map (fun sd => (sd.nombre, importServidor sd))).map
        (fun p => ServidorDoc.mk p.2.nombre p.2.ip
          (p.2.servicios.map (fun s => ServicioDoc.mk s.nombre s.protocolo s.puerto))) = ss := by
  intro ss
  induction ss with
  | nil => rfl
  | cons sd t ih =>
    simp only [List.map_cons, ih]
    congr 1
    have hsvc : (sd.servicios.map
          (fun s => Servicio.mk s.nombre s.protocolo s.puerto)).map
        (fun s => ServicioDoc.mk s.nombre s.protocolo s.puerto) = sd.servicios := by
      induction sd.servicios with
      | nil => rfl
      | cons s ts ihs => simp only [List.map_cons, ihs]
    show ServidorDoc.mk sd.nombre sd.ip ((sd.servicios.map
        (fun s => Servicio.mk s.nombre s.protocolo s.puerto)).map
        (fun s => ServicioDoc.mk s.nombre s.protocolo s.puerto)) = sd
    rw [hsvc]

theorem mapped_servers_name (ss : List ServidorDoc) :
    ∀ p ∈ ss.map (fun sd => (sd.nombre, importServidor sd)), p.2.nombre = p.1 := by
  intro p hp
  obtain ⟨sd, _, rfl⟩ := List.mem_map.mp hp
  rfl

theorem alistFind_isSome_of_name (ss : List ServidorDoc) (k : String)
    (h : ∃ sd ∈ ss, sd.nombre = k) :
    (alistFind (ss.map (fun sd => (sd.nombre, importServidor sd))) k).isSome = true := by
  obtain ⟨sd, hmem, hname⟩ := h
  unfold alistFind
  rw [Option.isSome_map']
  exact List.find?_isSome.mpr
    ⟨(sd.nombre, importServidor sd), List.mem_map.mpr ⟨sd, hmem, rfl⟩, by simp [hname]⟩

theorem export_cursos_roundtrip (S : List (String × Servidor))
    (hS : ∀ p ∈ S, p.2.nombre = p.1) :
    ∀ cs : List CursoDoc,
      (∀ cd ∈ cs, cd.alumnos.Nodup ∧ (∀ m ∈ cd.alumnos, strTrim m = m) ∧
        ∀ g ∈ cd.servidores, (alistFind S g.nombre).isSome = true) →
      (cs.map (fun cd => (cd.codigo, importCurso S cd))).map
        (fun p => CursoDoc.mk p.2.codigo p.2.nombre p.2.estado p.2.alumnos
          (p.2.servidores.map (fun q => GrantDoc.mk q.1.nombre q.2))) = cs := by
  intro cs
  induction cs with
  | nil => intro _; rfl
  | cons cd t ih =>
    intro hall
    simp only [List.map_cons]
    rw [ih (fun c hc => hall c (List.mem_cons_of_mem cd hc))]
    obtain ⟨e1, e2, e3, e4, e5⟩ := importCurso_roundtrip S hS cd
      (hall cd (List.mem_cons_self cd t)).2.1
      (hall cd (List.mem_cons_self cd t)).1
      (hall cd (List.mem_cons_self cd t)).2.2
    congr 1
    rw [e1, e2, e3, e4, e5]

/-- C7 counterexample: `danglingGrantDoc` is accepted by the import
(which has no failure path for an unknown granted server) but its course
grant for server `X` is silently dropped, so the exported document differs
from the imported one by more than collection ordering: the course's grant
list has length 0 instead of 1. -/
theorem roundtrip_fails_on_dangling_grant :
    exportarArchivo (importarArchivo emptyState danglingGrantDoc) ≠ danglingGrantDoc ∧
    (exportarArchivo (importarArchivo emptyState danglingGrantDoc)).cursos.map
      (fun c => c.servidores.length) = [0] ∧
    danglingGrantDoc.cursos.map (fun c => c.servidores.length) = [1] := by
  refine ⟨by decide, by decide, by decide⟩

/-- C7 (amended): the export/import round trip is exact (even including
order) for accepted documents that are well-formed — duplicate-free server
names, user codes and course codes, member code lists duplicate-free and
already stripped, and every course grant naming a server defined in the
document. -/
theorem roundtrip_wellformed (st : SDNState) (datos : Datos)
    (hwf : docWellFormed datos) :
    exportarArchivo (importarArchivo st datos) = datos := by
  obtain ⟨hsrv, halu, hcur, hcd⟩ := hwf
  obtain ⟨as, cs, ss⟩ := datos
  unfold importarArchivo exportarArchivo
  dsimp only
  rw [foldl_alistInsert_fresh (fun sd => sd.nombre) importServidor ss []
    (fun a _ => rfl) hsrv]
  rw [foldl_alistInsert_fresh (fun ad => ad.codigo) importAlumno as []
    (fun a _ => rfl) halu]
  simp only [List.nil_append]
  rw [foldl_alistInsert_fresh (fun cd => cd.codigo)
    (importCurso (ss.map (fun sd => (sd.nombre, importServidor sd)))) cs []
    (fun a _ => rfl) hcur]
  simp only [List.nil_append]
  simp only [Datos.mk.injEq]
  refine ⟨?_, ?_, ?_⟩
  · exact export_alumnos_roundtrip as
  · exact export_cursos_roundtrip _ (mapped_servers_name ss) cs
      (fun cd hc => ⟨(hcd cd hc).1, (hcd cd hc).2.1,
        fun g hg => alistFind_isSome_of_name ss g.nombre ((hcd cd hc).2.2 g hg)⟩)
  · exact export_servidores_roundtrip ss

/-- Witness for C7's amended theorem on a concrete well-formed document. -/
theorem roundtrip_wellformed_witness :
    exportarArchivo (importarArchivo emptyState roundtripDoc) = roundtripDoc :=
  roundtrip_wellformed emptyState roundtripDoc
    (by unfold docWellFormed; decide)

/-- Witness for C2's amended theorem: tearing down the registered connection
`cx2` with removal succeeding. -/
theorem borrarConexion_teardown_witness :
    (borrarConexion false teardownState "cx2").2 = true ∧
    alistFind (borrarConexion false teardownState "cx2").1.conexiones "cx2" = none ∧
    (false = false →
      alistFind (borrarConexion false teardownState "cx2").1.conexionFlujos "cx2" = none) ∧
    (false = true →
      (borrarConexion false teardownState "cx2").1.conexionFlujos =
        teardownState.conexionFlujos) :=
  borrarConexion_teardown false teardownState "cx2" teardownCx (by decide)

end NPM
